import Mathlib

/-!
Verification of the SimplePush connection core (worker.go, errors.go,
no_store.go, and the id package) against its natural-language specification.
Go code is shallowly embedded: pure functions become Lean functions, the
effectful worker handlers become explicit state/outcome passing, machine
integers become Int, and the nondeterministic environment (storage, router,
clock, random source, network) is a record of parameters.
-/

namespace SimplePush

/-- The distinguished error values of errors.go; `other` stands for any
further non-nil Go error reaching ErrToStatus. -/
inductive SPErr where
  | channelExists
  | invalidChannel
  | invalidCommand
  | invalidData
  | invalidPrimaryKey
  | missingData
  | noChannel
  | noDataToStore
  | noRecord
  | server
  | unknownCommand
  | tooManyPings
  | other (msg : String)
deriving DecidableEq, Repr

/-- ErrToStatus from errors.go: map an error (none = nil) to an HTTP status
and message. Mirrors the Go switch: the 503 group, the 401 group, and a
default of 500; status starts at 200 for nil. -/
def ErrToStatus : Option SPErr → Int × String
  | none => (200, "")
  | some e =>
    match e with
    | .channelExists | .noDataToStore | .invalidChannel | .noRecord =>
      (503, "Service Unavailable")
    | .missingData | .noChannel | .invalidCommand | .invalidData
    | .unknownCommand | .tooManyPings =>
      (401, "Invalid Command")
    | _ => (500, "An unexpected error occurred")

/-- Claim C5: ErrToStatus maps ChannelExists/NoDataToStore/InvalidChannel/
NoRecord to 503, MissingData/NoChannel/InvalidCommand/InvalidData/
UnknownCommand/TooManyPings to 401, any other non-nil error to 500, and nil
to 200. -/
theorem errToStatus_spec :
    (ErrToStatus none).1 = 200 ∧
    (ErrToStatus (some .channelExists)).1 = 503 ∧
    (ErrToStatus (some .noDataToStore)).1 = 503 ∧
    (ErrToStatus (some .invalidChannel)).1 = 503 ∧
    (ErrToStatus (some .noRecord)).1 = 503 ∧
    (ErrToStatus (some .missingData)).1 = 401 ∧
    (ErrToStatus (some .noChannel)).1 = 401 ∧
    (ErrToStatus (some .invalidCommand)).1 = 401 ∧
    (ErrToStatus (some .invalidData)).1 = 401 ∧
    (ErrToStatus (some .unknownCommand)).1 = 401 ∧
    (ErrToStatus (some .tooManyPings)).1 = 401 ∧
    (ErrToStatus (some .server)).1 = 500 ∧
    (ErrToStatus (some .invalidPrimaryKey)).1 = 500 ∧
    (∀ msg, (ErrToStatus (some (.other msg))).1 = 500) := by
  refine ⟨rfl, rfl, rfl, rfl, rfl, rfl, rfl, rfl, rfl, rfl, rfl, rfl, rfl, ?_⟩
  intro msg
  rfl

/-- JSON values appearing in frames the worker writes back. `updatesArr`
models the "updates" array of channelID/version objects. -/
inductive JVal where
  | str (s : String)
  | int (n : Int)
  | updatesArr (ups : List (String × Int))
deriving DecidableEq, Repr

/-- A message written to the websocket: a JSON object (field list) or a raw
text frame (worker.go sends the literal two-character text for short pongs). -/
inductive WireMsg where
  | jsonMsg (fields : List (String × JVal))
  | textMsg (t : String)
deriving DecidableEq, Repr

/-- Characters admitted by the worker filter regex; anything else matches
the negated class of workerFilter. -/
def uaidChar (c : Char) : Bool :=
  (('a' ≤ c) && (c ≤ 'f')) || (('A' ≤ c) && (c ≤ 'F')) ||
  (('0' ≤ c) && (c ≤ '9')) || (c == '-')

/-- self.filter.Find on strings.ToLower(s) is non-nil iff the lowercased
string has a character outside a-f, A-F, 0-9, hyphen (worker.go line 54,
regexp.MustCompile applied at lines 288 and 420). Lowercasing is modelled
per character. -/
def filterFind (s : String) : Bool :=
  (s.data.map Char.toLower).any (fun c => ! uaidChar c)

def UAID_MAX_LEN : Nat := 100

def CHID_MAX_LEN : Nat := 100

/-- The worker's nondeterministic environment: collaborator results and the
clock, one field per external call made by the handlers in worker.go.
`genUUID` is the value produced by GenUUID4, `helloStatus` the result code
returned by the server's HandleCommand for HELLO. -/
structure WorkerEnv where
  clientExists : String → Bool
  isKnownUaid : String → Bool
  maxChannels : Int
  genUUID : String
  helloStatus : Int
  storageAck : Option SPErr
  registerResult : Option SPErr
  endpoint : String
  deleteResult : Option SPErr
  pingInt : Int
  lastPing : Int
  now : Int
  longPongs : Bool
  getUpdates : String → Except SPErr (Option (List (String × Int)))

/-- The forceReset accumulation of Worker.Hello (worker.go lines 299-313):
set when the adopted UAID is empty, when a live client already owns it, and
- only when the channelID count is positive - when the count exceeds
maxChannels or storage does not know the UAID. -/
def helloForceReset (env : WorkerEnv) (u : String) (n : Nat) : Bool :=
  let fr1 := u == ""
  let fr2 := fr1 || env.clientExists u
  if 0 < n then (fr2 || decide ((n : Int) > env.maxChannels)) || ! env.isKnownUaid u
  else fr2

/-- Result of Worker.Hello: the returned error (none = nil up to the reply
write), the session uaid after the handler (sock.Uaid is mutated in place,
so it is reported even on error paths), whether forceReset fired, which
uaid (if any) was purged from storage, and the reply triple
(messageType, status, uaid) when a reply frame is written. -/
structure HelloOutcome where
  err : Option SPErr
  uaid : String
  forceReset : Bool
  purged : Option String
  reply : Option (String × Int × String)
deriving DecidableEq, Repr

/-- Tail of Worker.Hello from line 315: on forceReset purge the old uaid
(when non-empty) and adopt a generated one, then write the handcrafted
reply frame. -/
def helloFinish (env : WorkerEnv) (u : String) (fr : Bool) (mt : String) :
    HelloOutcome :=
  if fr then
    { err := none, uaid := env.genUUID, forceReset := true,
      purged := if u = "" then none else some u,
      reply := some (mt, env.helloStatus, env.genUUID) }
  else
    { err := none, uaid := u, forceReset := false, purged := none,
      reply := some (mt, env.helloStatus, u) }

/-- Worker.Hello (worker.go lines 235-363). `dataUaid` is the frame's uaid
field (none = key absent, defaulted to empty), `channelIDs` the length of
the channelIDs array (none = key absent or null), `mt` the lowercased
messageType echoed in the reply. -/
def helloStep (env : WorkerEnv) (sockUaid : String) (dataUaid : Option String)
    (channelIDs : Option Nat) (mt : String) : HelloOutcome :=
  let suggested := dataUaid.getD ""
  match channelIDs with
  | none => { err := some .missingData, uaid := sockUaid, forceReset := false,
              purged := none, reply := none }
  | some n =>
    if sockUaid ≠ "" ∧ suggested ≠ "" ∧ sockUaid ≠ suggested then
      { err := some .invalidChannel, uaid := sockUaid, forceReset := false,
        purged := none, reply := none }
    else if filterFind suggested then
      { err := some .invalidChannel, uaid := sockUaid, forceReset := false,
        purged := none, reply := none }
    else if sockUaid = "" then
      -- sock.Uaid = suggestedUAID happens before the length check and is
      -- not rolled back when the check fails (lines 294-298)
      if suggested.utf8ByteSize > UAID_MAX_LEN then
        { err := some .invalidData, uaid := suggested, forceReset := false,
          purged := none, reply := none }
      else
        helloFinish env suggested (helloForceReset env suggested n) mt
    else
      helloFinish env sockUaid false mt

/-- Go's int(Duration.Seconds()) for a duration in nanoseconds: division by
1e9 truncated toward zero (Int.div is T-division, matching Go's float-to-int
conversion here). -/
def goDurSeconds (ns : Int) : Int := Int.tdiv ns 1000000000

/-- Worker.Ping (worker.go lines 572-591): with a positive pingInt, compare
int(lastPing.Sub(now).Seconds()) - note the operand order of the source -
against pingInt; on violation send nothing, set stopped and return
TooManyPingsError; otherwise send a long pong JSON or the literal
two-character text. Result: (returned error, reply sent, stopped set). -/
def pingStep (env : WorkerEnv) (mt : String) :
    Option SPErr × Option WireMsg × Bool :=
  if env.pingInt > 0 ∧ goDurSeconds (env.lastPing - env.now) < env.pingInt then
    (some .tooManyPings, none, true)
  else if env.longPongs then
    (none, some (.jsonMsg [("messageType", .str mt), ("status", .int 200)]), false)
  else
    (none, some (.textMsg "\x7b\x7d"), false)

/-- Worker.Purge (worker.go lines 594-603): unconditionally send an empty
JSON object and return nil; no hello/uaid check. -/
def purgeStep : Option SPErr × WireMsg :=
  (none, .jsonMsg [])

/-- The error frame written by Worker.handleError (worker.go lines 197-204):
the echoed request fields are elided; status and error come from
ErrToStatus. -/
def errFrame (e : SPErr) : WireMsg :=
  .jsonMsg [("status", .int (ErrToStatus (some e)).1),
            ("error", .str (ErrToStatus (some e)).2)]

/-- Worker.Flush (worker.go lines 497-570): with an empty uaid set stopped
and return nil; with an empty channel fetch pending updates (an error is
reported to the client via handleError and returned; a nil result sends
nothing); otherwise synthesize a single-update notification. Result:
(returned error, frames sent, stopped set). -/
def flushStep (env : WorkerEnv) (uaid : String) (channel : String)
    (version : Int) : Option SPErr × List WireMsg × Bool :=
  if uaid = "" then (none, [], true)
  else if channel = "" then
    match env.getUpdates uaid with
    | .error e => (some e, [errFrame e], false)
    | .ok none => (none, [], false)
    | .ok (some ups) =>
      (none, [.jsonMsg [("updates", .updatesArr ups),
                        ("messageType", .str "notification")]], false)
  else
    (none, [.jsonMsg [("updates", .updatesArr [(channel, version)]),
                      ("messageType", .str "notification")]], false)

/-- Worker.Ack (worker.go lines 367-395): empty uaid gives
InvalidCommandError, a missing updates key MissingDataError; otherwise
Storage.Ack, and on its success the handler returns the result of Flush. -/
def ackStep (env : WorkerEnv) (sockUaid : String) (updatesPresent : Bool) :
    Option SPErr × List WireMsg × Bool :=
  if sockUaid = "" then (some .invalidCommand, [], false)
  else if ! updatesPresent then (some .missingData, [], false)
  else
    match env.storageAck with
    | some e => (some e, [], false)
    | none => flushStep env sockUaid "" 0

/-- Worker.Register (worker.go lines 398-458): empty uaid gives
InvalidCommandError; a missing, over-long or filter-rejected channelID
gives InvalidDataError; a storage error is surfaced; otherwise the reply
(messageType, uaid, status 200, channelID, pushEndpoint) is sent and nil
returned. -/
def registerStep (env : WorkerEnv) (sockUaid : String)
    (channelID : Option String) (mt : String) :
    Option SPErr × Option (String × String × Int × String × String) :=
  if sockUaid = "" then (some .invalidCommand, none)
  else
    match channelID with
    | none => (some .invalidData, none)
    | some appid =>
      if appid.utf8ByteSize > CHID_MAX_LEN then (some .invalidData, none)
      else if filterFind appid then (some .invalidData, none)
      else
        match env.registerResult with
        | some e => (some e, none)
        | none => (none, some (mt, sockUaid, 200, appid, env.endpoint))

/-- Worker.Unregister (worker.go lines 461-494): empty uaid gives
InvalidCommandError, a missing channelID MissingDataError; otherwise the
DeleteAppID result is discarded (the source never assigns it), the reply
(messageType, status 200, channelID) is always sent and nil returned. -/
def unregisterStep (env : WorkerEnv) (sockUaid : String)
    (channelID : Option String) (mt : String) :
    Option SPErr × Option (String × Int × String) :=
  if sockUaid = "" then (some .invalidCommand, none)
  else
    match channelID with
    | none => (some .missingData, none)
    | some appid =>
      -- sock.Storage.DeleteAppID(sock.Uaid, appid, false): return value
      -- ignored; env.deleteResult deliberately does not flow into the
      -- outcome, as in the source
      (none, some (mt, 200, appid))

/-- A parsed inbound frame as dispatched by Worker.sniffer (worker.go lines
136-179). `unknown` covers frames with a missing or unrecognized
messageType. -/
inductive InFrame where
  | helloF (dataUaid : Option String) (channelIDs : Option Nat)
  | ackF (updatesPresent : Bool)
  | registerF (channelID : Option String)
  | unregisterF (channelID : Option String)
  | pingF
  | purgeF
  | unknownF
deriving DecidableEq, Repr

/-- Per-session mutable state visible to the embedding: sock.Uaid, the
worker's stopped flag, and the frames written to the socket so far. -/
structure SessState where
  uaid : String
  stopped : Bool
  sent : List WireMsg
deriving DecidableEq, Repr

/-- Convert a HelloOutcome reply triple to the frame written at worker.go
lines 351-354. -/
def helloReplyFrames : Option (String × Int × String) → List WireMsg
  | none => []
  | some (m, st, u) =>
    [.jsonMsg [("messageType", .str m), ("status", .int st), ("uaid", .str u)]]

/-- One iteration of Worker.sniffer on a parsed frame: dispatch to the
handler, append whatever it wrote, and on a handler error send the error
frame via handleError and set stopped (worker.go lines 181-192). A stopped
session processes nothing further. -/
def sniffStep (env : WorkerEnv) (st : SessState) (f : InFrame) : SessState :=
  if st.stopped then st
  else
    match f with
    | .helloF d ch =>
      let o := helloStep env st.uaid d ch "hello"
      match o.err with
      | some e =>
        { uaid := o.uaid, stopped := true, sent := st.sent ++ [errFrame e] }
      | none =>
        -- reply written, state set ACTIVE, then Flush(sock, 0, "", 0)
        let fo := flushStep env o.uaid "" 0
        match fo.1 with
        | some e2 =>
          { uaid := o.uaid, stopped := true,
            sent := st.sent ++ helloReplyFrames o.reply ++ fo.2.1 ++ [errFrame e2] }
        | none =>
          { uaid := o.uaid, stopped := fo.2.2,
            sent := st.sent ++ helloReplyFrames o.reply ++ fo.2.1 }
    | .ackF up =>
      let r := ackStep env st.uaid up
      match r.1 with
      | some e =>
        { st with stopped := true, sent := st.sent ++ r.2.1 ++ [errFrame e] }
      | none => { st with stopped := r.2.2, sent := st.sent ++ r.2.1 }
    | .registerF ch =>
      let r := registerStep env st.uaid ch "register"
      match r.1 with
      | some e => { st with stopped := true, sent := st.sent ++ [errFrame e] }
      | none =>
        match r.2 with
        | none => st
        | some (m, u, code, c, ep) =>
          { st with sent := st.sent ++
              [.jsonMsg [("messageType", .str m), ("uaid", .str u),
                         ("status", .int code), ("channelID", .str c),
                         ("pushEndpoint", .str ep)]] }
    | .unregisterF ch =>
      let r := unregisterStep env st.uaid ch "unregister"
      match r.1 with
      | some e => { st with stopped := true, sent := st.sent ++ [errFrame e] }
      | none =>
        match r.2 with
        | none => st
        | some (m, code, c) =>
          { st with sent := st.sent ++
              [.jsonMsg [("messageType", .str m), ("status", .int code),
                         ("channelID", .str c)]] }
    | .pingF =>
      let r := pingStep env "ping"
      match r.1 with
      | some e => { st with stopped := true, sent := st.sent ++ [errFrame e] }
      | none =>
        { st with stopped := r.2.2, sent := st.sent ++ r.2.1.toList }
    | .purgeF => { st with sent := st.sent ++ [purgeStep.2] }
    | .unknownF =>
      { st with stopped := true, sent := st.sent ++ [errFrame .unknownCommand] }

/-- Run a fresh session (empty uaid, not stopped, nothing sent) over a list
of parsed inbound frames. -/
def runSession (env : WorkerEnv) (fs : List InFrame) : SessState :=
  fs.foldl (sniffStep env) { uaid := "", stopped := false, sent := [] }

/-- The time.AfterFunc callback installed by Worker.Run (worker.go lines
207-215): when it fires it closes the socket iff sock.Uaid is still empty,
and writes no frame of its own. Result: (socket closed, frames written by
the callback). -/
def helloTimeoutFire (uaid : String) : Bool × List WireMsg :=
  (uaid == "", [])

namespace IdCodec

/-- A hexadecimal digit character (either case). -/
def isHexDigitChar (c : Char) : Bool :=
  (('0' ≤ c) && (c ≤ '9')) || (('a' ≤ c) && (c ≤ 'f')) || (('A' ≤ c) && (c ≤ 'F'))

/-- Modelled from the spec: the id package source is absent from src/ (only
its test file survives); per section 4.1, Valid(s) is true iff s is exactly
32 hex characters, or the hyphenated 8-4-4-4-12 form of 36 characters with
hyphens at positions 8, 13, 18 and 23 and hex digits everywhere else. -/
def Valid (s : String) : Bool :=
  let cs := s.data
  (cs.length == 32 && cs.all isHexDigitChar) ||
  (cs.length == 36 &&
    (List.range 36).all (fun i =>
      if i = 8 ∨ i = 13 ∨ i = 18 ∨ i = 23 then cs.getD i ' ' == '-'
      else isHexDigitChar (cs.getD i ' ')))

/-- The spec's first Valid alternative, phrased independently: exactly 32
characters, all hex. -/
def Is32Hex (s : String) : Prop :=
  s.data.length = 32 ∧ ∀ c ∈ s.data, isHexDigitChar c = true

/-- The spec's second Valid alternative, phrased independently: exactly 36
characters, hyphens at the canonical 8-4-4-4-12 positions and hex digits
everywhere else. -/
def IsHyphenated8444 (s : String) : Prop :=
  s.data.length = 36 ∧
  ∀ i, i < 36 →
    ((i = 8 ∨ i = 13 ∨ i = 18 ∨ i = 23) → s.data.getD i ' ' = '-') ∧
    (¬(i = 8 ∨ i = 13 ∨ i = 18 ∨ i = 23) →
      isHexDigitChar (s.data.getD i ' ') = true)

/-- The lowercase hex digit for a value below 16. -/
def hexDigit (n : Nat) : Char :=
  if n < 10 then Char.ofNat (48 + n) else Char.ofNat (87 + n)

/-- Lowercase hex encoding of a byte list, two digits per byte. -/
def hexEncode : List Nat → List Char
  | [] => []
  | b :: bs => hexDigit (b % 256 / 16) :: hexDigit (b % 256 % 16) :: hexEncode bs

/-- Modelled from the spec: the id package source is absent from src/; per
section 4.1, Generate returns a fresh UAID as 32 lowercase hex characters
(no hyphens) backed by a strong random source, here abstracted as the
16-byte argument. -/
def Generate (bytes : List Nat) : String :=
  String.mk (hexEncode bytes)

end IdCodec

namespace NoStore

/-- Go strings.SplitN(key, sep, 2) with a one-character separator: split at
the first dot, or none when the key has no dot (so SplitN yields fewer than
two items). -/
def splitFirstDot : List Char → Option (List Char × List Char)
  | [] => none
  | c :: rest =>
    if c = '.' then some ([], rest)
    else
      match splitFirstDot rest with
      | none => none
      | some (a, b) => some (c :: a, b)

/-- NoStore.KeyToIDs (no_store.go lines 22-28): SplitN on the first dot;
fewer than two items yields ("", "", false), otherwise the two parts and
true. -/
def KeyToIDs (key : String) : String × String × Bool :=
  match splitFirstDot key.data with
  | none => ("", "", false)
  | some (a, b) => (String.mk a, String.mk b, true)

/-- NoStore.IDsToKey (no_store.go lines 30-35): an empty uaid or chid gives
("", false), otherwise the dot-joined key and true. -/
def IDsToKey (suaid schid : String) : String × Bool :=
  if suaid = "" ∨ schid = "" then ("", false)
  else (suaid ++ "." ++ schid, true)

end NoStore

/-- Outcome of the HTTP GET against the metadata service, as seen by
GetAWSPublicHostname: a transport error from client.Do, or a response with
a status code and a body read that may itself fail. -/
inductive AwsResult where
  | transportError (msg : String)
  | response (status : Int) (body : Except String String)
deriving Repr

/-- GetAWSPublicHostname (the AWS probe in src, lines 69-91): propagate a
transport error; reject any status below 200 or at least 300; propagate a
body-read error; otherwise return the body as the hostname. -/
def GetAWSPublicHostname : AwsResult → Except String String
  | .transportError m => .error m
  | .response st body =>
    if st < 200 ∨ st ≥ 300 then
      .error ("Bad response from AWS hostname call: " ++ toString st)
    else
      match body with
      | .error m => .error m
      | .ok b => .ok b

/-! Shared concrete environments for witnesses and counterexamples. -/

/-- A benign environment: no live client owns any uaid, storage knows every
uaid, default maxChannels of 200, pings unlimited, no pending updates. -/
def baseEnv : WorkerEnv where
  clientExists := fun _ => false
  isKnownUaid := fun _ => true
  maxChannels := 200
  genUUID := "0123456789abcdef0123456789abcdef"
  helloStatus := 200
  storageAck := none
  registerResult := none
  endpoint := "https://push.example.org/update/key"
  deleteResult := none
  pingInt := 0
  lastPing := 0
  now := 0
  longPongs := false
  getUpdates := fun _ => .ok none

/-! ### Claim C9 - NoStore key codec -/

lemma splitFirstDot_append (a b : List Char) (h : '.' ∉ a) :
    NoStore.splitFirstDot (a ++ '.' :: b) = some (a, b) := by
  induction a with
  | nil => simp [NoStore.splitFirstDot]
  | cons c cs ih =>
    have hc : ¬ c = '.' := fun hh => h (hh ▸ List.mem_cons_self c cs)
    have hcs : '.' ∉ cs := fun hm => h (List.mem_cons_of_mem c hm)
    rw [List.cons_append]
    simp only [NoStore.splitFirstDot]
    rw [if_neg hc, ih hcs]

/-- Claim C9: IDsToKey returns ok=false exactly when the uaid or the chid is
empty, and for a non-empty dot-free uaid and non-empty chid, KeyToIDs
inverts IDsToKey, recovering the pair exactly. -/
theorem nostore_key_codec (u c : String) (hu : u ≠ "") (hc : c ≠ "")
    (hdot : '.' ∉ u.data) :
    (∀ a b : String, (NoStore.IDsToKey a b).2 = false ↔ (a = "" ∨ b = "")) ∧
    NoStore.KeyToIDs (NoStore.IDsToKey u c).1 = (u, c, true) := by
  constructor
  · intro a b
    unfold NoStore.IDsToKey
    by_cases h : a = "" ∨ b = "" <;> simp [h]
  · have hkey : NoStore.IDsToKey u c = (u ++ "." ++ c, true) := by
      unfold NoStore.IDsToKey
      rw [if_neg (by tauto)]
    rw [hkey]
    obtain ⟨lu⟩ := u
    obtain ⟨lc⟩ := c
    have hdata : (String.mk lu ++ "." ++ String.mk lc).data = lu ++ '.' :: lc := by
      show (lu ++ ['.']) ++ lc = lu ++ '.' :: lc
      simp
    unfold NoStore.KeyToIDs
    rw [hdata, splitFirstDot_append lu lc hdot]

/-- Claim C9 witness: the codec round-trips on a concrete pair; the chid may
itself contain a dot since SplitN splits only at the first one. -/
theorem nostore_key_codec_witness :
    NoStore.KeyToIDs (NoStore.IDsToKey "abc123" "def.456").1 =
      ("abc123", "def.456", true) :=
  (nostore_key_codec "abc123" "def.456" (by decide) (by decide) (by decide)).2

/-! ### Claim C8 - AWS metadata probe -/

/-- Claim C8: GetAWSPublicHostname returns the response body as the hostname
exactly when the GET completed with a 2xx status and a readable body; a
transport error or a non-2xx status yields an error. -/
theorem getAWSPublicHostname_spec :
    (∀ r, (∃ h, GetAWSPublicHostname r = Except.ok h) ↔
      ∃ st b, r = AwsResult.response st (Except.ok b) ∧ 200 ≤ st ∧ st < 300) ∧
    (∀ st b, 200 ≤ st → st < 300 →
      GetAWSPublicHostname (AwsResult.response st (Except.ok b)) = Except.ok b) ∧
    (∀ m, GetAWSPublicHostname (AwsResult.transportError m) = Except.error m) := by
  refine ⟨?_, ?_, fun m => rfl⟩
  · intro r
    constructor
    · rintro ⟨h, hh⟩
      match r with
      | .transportError m => exact absurd hh (by simp [GetAWSPublicHostname])
      | .response st body =>
        simp only [GetAWSPublicHostname] at hh
        by_cases hst : st < 200 ∨ st ≥ 300
        · rw [if_pos hst] at hh
          exact absurd hh (by simp)
        · rw [if_neg hst] at hh
          match body with
          | .error m => exact absurd hh (by simp)
          | .ok b =>
            push_neg at hst
            exact ⟨st, b, rfl, hst.1, hst.2⟩
    · rintro ⟨st, b, rfl, h1, h2⟩
      refine ⟨b, ?_⟩
      simp only [GetAWSPublicHostname]
      rw [if_neg (by omega)]
  · intro st b h1 h2
    simp only [GetAWSPublicHostname]
    rw [if_neg (by omega)]

/-- Claim C8 witness: a 200 response with readable body is returned as the
hostname. -/
theorem getAWSPublicHostname_witness :
    GetAWSPublicHostname (AwsResult.response 200 (Except.ok "ec2-1a.example")) =
      Except.ok "ec2-1a.example" :=
  getAWSPublicHostname_spec.2.1 200 "ec2-1a.example" (by omega) (by omega)

/-! ### Claim C4 - unregister always replies 200 -/

/-- Claim C4: on a session with a non-empty uaid, a missing channelID yields
MissingDataError; otherwise - for every storage delete outcome, since the
source discards it - the handler replies with status 200 and returns nil. -/
theorem unregister_spec (env : WorkerEnv) (sockUaid : String) (mt : String)
    (h : sockUaid ≠ "") :
    unregisterStep env sockUaid none mt = (some .missingData, none) ∧
    ∀ appid, unregisterStep env sockUaid (some appid) mt =
      (none, some (mt, 200, appid)) := by
  unfold unregisterStep
  exact ⟨by rw [if_neg h], fun appid => by rw [if_neg h]⟩

/-- An environment whose storage delete fails, for the C4 witness. -/
def failingDeleteEnv : WorkerEnv := { baseEnv with deleteResult := some .server }

/-- Claim C4 witness: with a failing storage delete, unregister still
replies 200 and returns nil. -/
theorem unregister_spec_witness :
    unregisterStep failingDeleteEnv "someuaid" (some "chan1") "unregister" =
      (none, some ("unregister", 200, "chan1")) :=
  (unregister_spec failingDeleteEnv "someuaid" "unregister" (by decide)).2 "chan1"

/-! ### Claim C3 - hello prerequisite for other commands -/

/-- Claim C3 counterexample: on a fresh session that has never completed a
hello (uaid still empty), a purge frame is answered with an empty JSON
object and the handler returns nil, not InvalidCommandError; the claim that
every non-hello command requires a prior hello is false for purge (and for
ping). -/
theorem preHello_guard_counterexample :
    (runSession baseEnv [InFrame.purgeF]).uaid = "" ∧
    (runSession baseEnv [InFrame.purgeF]).sent = [WireMsg.jsonMsg []] ∧
    (runSession baseEnv [InFrame.purgeF]).stopped = false ∧
    purgeStep.1 = none := by
  refine ⟨rfl, rfl, rfl, rfl⟩

/-- Claim C3 (amended): ack, register and unregister do return
InvalidCommandError on a session with an empty uaid, but ping and purge
perform no such check: purge always returns nil, and ping - whose handler
never consults the uaid - returns either nil or TooManyPingsError. -/
theorem preHello_guard_amended (env : WorkerEnv) (up : Bool)
    (ch : Option String) (mt mt' : String) :
    (ackStep env "" up).1 = some SPErr.invalidCommand ∧
    (registerStep env "" ch mt).1 = some SPErr.invalidCommand ∧
    (unregisterStep env "" ch mt).1 = some SPErr.invalidCommand ∧
    purgeStep.1 = none ∧
    ((pingStep env mt').1 = none ∨
      (pingStep env mt').1 = some SPErr.tooManyPings) := by
  refine ⟨rfl, rfl, rfl, rfl, ?_⟩
  unfold pingStep
  split
  · exact Or.inr rfl
  · split
    · exact Or.inl rfl
    · exact Or.inl rfl

/-! ### Claim C2 - ping rate limiting -/

lemma goDurSeconds_nonpos (ns : Int) (h : ns ≤ 0) : goDurSeconds ns ≤ 0 := by
  unfold goDurSeconds
  have h2 : 0 ≤ Int.tdiv (-ns) 1000000000 :=
    Int.tdiv_nonneg (by omega) (by norm_num)
  rw [Int.neg_tdiv] at h2
  omega

/-- The environment of the C2 failing input: clientMinPing of 5 seconds,
the previous client ping 10 seconds in the past.  The claim says such a
ping gets a reply and a nil return. -/
def pingBugEnv : WorkerEnv :=
  { baseEnv with pingInt := 5, lastPing := 0, now := 10000000000,
                 longPongs := true }

/-- Claim C2 (code bug): worker.go line 573 computes
lastPing.Sub(time.Now()) - past minus present, always nonpositive - and
never refreshes lastPing, so with any positive clientMinPing the guard
fires on every ping, no matter how long ago the previous one was: at the
failing input the elapsed time is 10 seconds against a 5 second threshold,
yet the handler sends nothing, sets stopped and returns TooManyPingsError;
in general every ping on such a deployment does. -/
theorem ping_rate_limit_bug :
    pingBugEnv.pingInt = 5 ∧
    goDurSeconds (pingBugEnv.now - pingBugEnv.lastPing) = 10 ∧
    pingStep pingBugEnv "ping" = (some SPErr.tooManyPings, none, true) ∧
    (∀ env : WorkerEnv, ∀ mt, 0 < env.pingInt → env.lastPing ≤ env.now →
      pingStep env mt = (some SPErr.tooManyPings, none, true)) := by
  refine ⟨rfl, by decide, by decide, ?_⟩
  intro env mt hpos hle
  unfold pingStep
  rw [if_pos]
  exact ⟨hpos, lt_of_le_of_lt (goDurSeconds_nonpos _ (by omega)) hpos⟩

/-- Claim C2 witness: the universal part of the bug theorem applied at the
failing input. -/
theorem ping_rate_limit_bug_witness :
    pingStep pingBugEnv "ping" = (some SPErr.tooManyPings, none, true) :=
  ping_rate_limit_bug.2.2.2 pingBugEnv "ping" (by decide) (by decide)

/-! ### Claims C1 and C10 - the hello handler -/

lemma helloForceReset_iff (env : WorkerEnv) (u : String) (n : Nat)
    (hmax : 0 ≤ env.maxChannels) :
    helloForceReset env u n = true ↔
      (u = "" ∨ env.clientExists u = true ∨ (n : Int) > env.maxChannels ∨
       (env.isKnownUaid u = false ∧ 0 < n)) := by
  unfold helloForceReset
  by_cases hn : 0 < n
  · simp only [if_pos hn, Bool.or_eq_true, beq_iff_eq, Bool.not_eq_true',
      decide_eq_true_eq]
    constructor
    · rintro (((h | h) | h) | h)
      exacts [Or.inl h, Or.inr (Or.inl h), Or.inr (Or.inr (Or.inl h)),
        Or.inr (Or.inr (Or.inr ⟨h, hn⟩))]
    · rintro (h | h | h | ⟨h, _⟩)
      exacts [Or.inl (Or.inl (Or.inl h)), Or.inl (Or.inl (Or.inr h)),
        Or.inl (Or.inr h), Or.inr h]
  · simp only [if_neg hn, Bool.or_eq_true, beq_iff_eq]
    have hn0 : n = 0 := by omega
    subst hn0
    constructor
    · rintro (h | h)
      exacts [Or.inl h, Or.inr (Or.inl h)]
    · rintro (h | h | h | ⟨_, h⟩)
      · exact Or.inl h
      · exact Or.inr h
      · exfalso
        rw [Nat.cast_zero] at h
        omega
      · exact absurd h (lt_irrefl 0)

lemma helloStep_empty_uaid (env : WorkerEnv) (s : String) (n : Nat)
    (mt : String) (hfilter : filterFind s = false)
    (hlen : s.utf8ByteSize ≤ UAID_MAX_LEN) :
    helloStep env "" (some s) (some n) mt =
      helloFinish env s (helloForceReset env s n) mt := by
  unfold helloStep
  simp only [Option.getD_some]
  rw [if_neg (by simp), if_neg (by rw [hfilter]; exact Bool.false_ne_true)]
  rw [if_pos trivial, if_neg (by omega)]

/-- Claim C1: on a hello frame carrying a channelIDs key, with an empty
session uaid, a filter-clean suggested uaid of at most 100 bytes, a
nonnegative maxChannels, and a generated uaid distinct from the suggestion:
the handler reaches the reply with no error; forceReset fires exactly when
the suggestion is empty, a live session already owns it, the channelID
count exceeds maxChannels, or storage does not know the uaid while the
channelID list is non-empty; when forceReset fires the old uaid (if
non-empty) is purged, the session adopts the generated uaid and the reply
carries it - differing from the suggestion; otherwise the suggestion is
adopted and echoed. -/
theorem hello_forceReset_spec (env : WorkerEnv) (s : String) (n : Nat)
    (hfilter : filterFind s = false)
    (hlen : s.utf8ByteSize ≤ UAID_MAX_LEN)
    (hmax : 0 ≤ env.maxChannels)
    (hfresh : env.genUUID ≠ s) :
    (helloStep env "" (some s) (some n) "hello").err = none ∧
    ((helloStep env "" (some s) (some n) "hello").forceReset = true ↔
      (s = "" ∨ env.clientExists s = true ∨ (n : Int) > env.maxChannels ∨
       (env.isKnownUaid s = false ∧ 0 < n))) ∧
    ((helloStep env "" (some s) (some n) "hello").forceReset = true →
      (helloStep env "" (some s) (some n) "hello").uaid = env.genUUID ∧
      (helloStep env "" (some s) (some n) "hello").uaid ≠ s ∧
      (helloStep env "" (some s) (some n) "hello").purged =
        (if s = "" then none else some s) ∧
      (helloStep env "" (some s) (some n) "hello").reply =
        some ("hello", env.helloStatus, env.genUUID)) ∧
    ((helloStep env "" (some s) (some n) "hello").forceReset = false →
      (helloStep env "" (some s) (some n) "hello").uaid = s ∧
      (helloStep env "" (some s) (some n) "hello").reply =
        some ("hello", env.helloStatus, s)) := by
  rw [helloStep_empty_uaid env s n "hello" hfilter hlen]
  unfold helloFinish
  by_cases hfr : helloForceReset env s n = true
  · rw [if_pos hfr]
    refine ⟨rfl, ?_, fun _ => ⟨rfl, hfresh, rfl, rfl⟩, fun h => absurd h (by simp)⟩
    constructor
    · intro _
      exact (helloForceReset_iff env s n hmax).mp hfr
    · intro _
      rfl
  · rw [if_neg hfr]
    rw [Bool.not_eq_true] at hfr
    refine ⟨rfl, ?_, fun h => absurd h (by simp), fun _ => ⟨rfl, rfl⟩⟩
    constructor
    · intro h
      exact absurd h (by simp)
    · intro hcontra
      exact absurd ((helloForceReset_iff env s n hmax).mpr hcontra)
        (by rw [hfr]; exact Bool.false_ne_true)

/-- An environment where storage does not know any uaid, for the C1
witness. -/
def unknownUaidEnv : WorkerEnv := { baseEnv with isKnownUaid := fun _ => false }

/-- Claim C1 witness: a client suggesting uaid "abc" with one channelID to a
storage that does not know it triggers forceReset and the session adopts
the freshly generated uaid. -/
theorem hello_forceReset_spec_witness :
    (helloStep unknownUaidEnv "" (some "abc") (some 1) "hello").uaid =
      unknownUaidEnv.genUUID :=
  ((hello_forceReset_spec unknownUaidEnv "abc" 1 (by decide) (by decide)
    (by decide) (by decide)).2.2.1 (by decide)).1

/-- Claim C10: a hello on an empty-uaid session whose suggested uaid passes
the character filter but exceeds 100 bytes returns InvalidDataError with
the session uaid left holding the rejected over-long (hence non-empty)
value, no purge, no forceReset and no reply: the error path does not roll
the field back. -/
theorem hello_overlong_uaid (env : WorkerEnv) (s : String) (n : Nat)
    (mt : String) (hfilter : filterFind s = false)
    (hlen : UAID_MAX_LEN < s.utf8ByteSize) :
    helloStep env "" (some s) (some n) mt =
      { err := some SPErr.invalidData, uaid := s, forceReset := false,
        purged := none, reply := none } ∧ s ≠ "" := by
  constructor
  · unfold helloStep
    simp only [Option.getD_some]
    rw [if_neg (by simp), if_neg (by rw [hfilter]; exact Bool.false_ne_true)]
    rw [if_pos trivial, if_pos (by omega)]
  · intro h
    subst h
    exact absurd hlen (by decide)

/-- A 101-character suggested uaid for the C10 witness. -/
def overlongUaid : String := String.mk (List.replicate 101 'a')

/-- Claim C10 witness: a 101-byte filter-clean uaid is rejected with
InvalidDataError while the session uaid keeps the rejected value. -/
theorem hello_overlong_uaid_witness :
    helloStep baseEnv "" (some overlongUaid) (some 0) "hello" =
      { err := some SPErr.invalidData, uaid := overlongUaid,
        forceReset := false, purged := none, reply := none } :=
  (hello_overlong_uaid baseEnv overlongUaid 0 "hello" (by decide) (by decide)).1

/-! ### Claim C6 - hello timeout -/

/-- An environment with long pongs enabled and no ping rate limit, for the
C6 counterexample. -/
def longPongEnv : WorkerEnv := { baseEnv with longPongs := true }

/-- Claim C6 counterexample: a session that receives one ping and never says
hello still has an empty uaid when the deadline fires, so its socket is
closed - but a pong reply frame was already sent to the client before the
close, refuting the claim that no reply frame precedes it. -/
theorem hello_timeout_counterexample :
    (runSession longPongEnv [InFrame.pingF]).uaid = "" ∧
    (helloTimeoutFire (runSession longPongEnv [InFrame.pingF]).uaid).1 = true ∧
    (runSession longPongEnv [InFrame.pingF]).sent =
      [WireMsg.jsonMsg [("messageType", JVal.str "ping"),
                        ("status", JVal.int 200)]] := by
  refine ⟨rfl, rfl, rfl⟩

/-- Claim C6 (amended): when the helloTimeout callback fires it closes the
socket exactly when the session uaid is still empty, and the callback
itself writes no frame; a session that received no frames has sent nothing
and an empty uaid, so the silent-close behaviour holds for an idle client,
but command handlers (pong, purge, error frames) may write before the
deadline on a non-idle one. -/
theorem hello_timeout_amended (env : WorkerEnv) (fs : List InFrame) :
    (helloTimeoutFire (runSession env fs).uaid).1 =
      ((runSession env fs).uaid == "") ∧
    (helloTimeoutFire (runSession env fs).uaid).2 = [] ∧
    (runSession env []).uaid = "" ∧
    (runSession env []).sent = [] := by
  exact ⟨rfl, rfl, rfl, rfl⟩

/-! ### Claim C7 - id codec (spec-modelled) -/

lemma valid_iff (s : String) :
    IdCodec.Valid s = true ↔ (IdCodec.Is32Hex s ∨ IdCodec.IsHyphenated8444 s) := by
  unfold IdCodec.Valid IdCodec.Is32Hex IdCodec.IsHyphenated8444
  simp only [Bool.or_eq_true, Bool.and_eq_true, beq_iff_eq, List.all_eq_true,
    List.mem_range]
  apply or_congr Iff.rfl
  apply and_congr Iff.rfl
  constructor
  · intro h2
    refine fun i hi => ⟨fun hp => ?_, fun hp => ?_⟩
    · have := h2 i hi
      rw [if_pos hp] at this
      simpa using this
    · have := h2 i hi
      rwa [if_neg hp] at this
  · intro h2
    intro i hi
    by_cases hp : i = 8 ∨ i = 13 ∨ i = 18 ∨ i = 23
    · rw [if_pos hp]
      simpa using (h2 i hi).1 hp
    · rw [if_neg hp]
      exact (h2 i hi).2 hp

lemma hexDigit_isHex : ∀ n, n < 16 → IdCodec.isHexDigitChar (IdCodec.hexDigit n) = true := by
  decide

lemma hexEncode_length (bs : List Nat) :
    (IdCodec.hexEncode bs).length = 2 * bs.length := by
  induction bs with
  | nil => rfl
  | cons b bs ih =>
    simp only [IdCodec.hexEncode, List.length_cons, ih]
    omega

lemma hexEncode_isHex (bs : List Nat) :
    ∀ c ∈ IdCodec.hexEncode bs, IdCodec.isHexDigitChar c = true := by
  induction bs with
  | nil =>
    intro c hc
    simp [IdCodec.hexEncode] at hc
  | cons b bs ih =>
    intro c hc
    simp only [IdCodec.hexEncode, List.mem_cons] at hc
    rcases hc with rfl | rfl | hc
    · exact hexDigit_isHex _ (by omega)
    · exact hexDigit_isHex _ (by omega)
    · exact ih c hc

/-- The modelled Generate agrees with the repository's test vectors: hex
encoding the decoded bytes of TestDecodeString yields the test's encodedId
string. -/
def decodedIdBytes : List Nat :=
  [0xe2, 0x81, 0xb9, 0x49, 0x8a, 0x92, 0x44, 0x43,
   0xb0, 0xc8, 0x54, 0x65, 0xba, 0x43, 0x9a, 0x76]

lemma generate_decodedIdBytes :
    IdCodec.Generate decodedIdBytes = "e281b9498a924443b0c85465ba439a76" := by
  decide

/-- Claim C7 (spec-modelled, id package source missing from src/): Valid is
true exactly on 32-hex strings and on 36-character hyphenated 8-4-4-4-12
strings - checked against all six validTests vectors of the package's test
file - and Generate of any 16-byte input has length 32 and satisfies
Valid. -/
theorem idCodec_spec :
    (∀ s, IdCodec.Valid s = true ↔
      (IdCodec.Is32Hex s ∨ IdCodec.IsHyphenated8444 s)) ∧
    (IdCodec.Valid "e281b9498a924443b0c85465ba439a76" = true ∧
     IdCodec.Valid "e281b949-8a92-4443-b0c8-5465ba439a76" = true ∧
     IdCodec.Valid "e281b949" = false ∧
     IdCodec.Valid "e281b9498a924443b0c85465ba439a7601" = false ∧
     IdCodec.Valid "--e281b9498a924443b0c85465ba439a76--" = false ∧
     IdCodec.Valid "e281b9498a92-4443-b0c85465ba439a76" = false) ∧
    (∀ bytes : List Nat, bytes.length = 16 →
      (IdCodec.Generate bytes).length = 32 ∧
      IdCodec.Valid (IdCodec.Generate bytes) = true) := by
  refine ⟨valid_iff, by decide, ?_⟩
  intro bytes hlen
  have hl : (IdCodec.hexEncode bytes).length = 32 := by
    rw [hexEncode_length, hlen]
  refine ⟨hl, ?_⟩
  rw [valid_iff]
  left
  exact ⟨hl, hexEncode_isHex bytes⟩

/-- Claim C7 witness: Generate applied to the test file's 16 decoded bytes
has length 32 and satisfies Valid. -/
theorem idCodec_spec_witness :
    (IdCodec.Generate decodedIdBytes).length = 32 ∧
    IdCodec.Valid (IdCodec.Generate decodedIdBytes) = true :=
  idCodec_spec.2.2 decodedIdBytes (by decide)

end SimplePush
